import Mathlib

/-!
Verification development for the nulucre-ai-platform trading agent
(`src/agent-client.js`).  The agent state, ledger operations and the three
workflows (`analyzeMarketAndDecide`, `analyzeBatch`, `smartAnalysis`) are
embedded as pure Lean functions over rational currency amounts; the paid-call
transport (the x402 client) is modelled as an environment value supplied to
each call, carrying either a typed response or an error message, together with
the wall-clock data (timestamp, duration) the source reads at call time.
JavaScript exceptions are modelled with `Except`.
-/

namespace NulucreAgent

/-- Outcome tag of a recorded transaction (`status: 'success' | 'failed'`). -/
inductive TxStatus where
  | success
  | failed
deriving DecidableEq, Repr

/-- One ledger entry, as pushed onto `this.transactions`.  On success the
source stores `duration` (a millisecond count rendered as a string) and
`requestId` and no `error` key; on failure it stores `error` and omits
`duration` and `requestId`.  Absent keys are modelled with `Option`. -/
structure Transaction where
  timestamp : String
  endpoint : String
  amount : ℚ
  duration : Option Nat
  status : TxStatus
  requestId : Option String
  errMsg : Option String
deriving DecidableEq, Repr

/-- The mutable fields of a `TradingAgent` instance that the workflows touch:
`maxDailySpend` (the cap, fixed at construction), `spendingToday` and the
transaction ledger, plus the identification fields the report prints. -/
structure AgentState where
  name : String
  walletAddress : String
  maxDailySpend : ℚ
  spendingToday : ℚ
  transactions : List Transaction
deriving DecidableEq, Repr

/-- Agent state right after the constructor: `spendingToday = 0`,
`transactions = []`. -/
def initState (name walletAddress : String) (maxDailySpend : ℚ) : AgentState :=
  { name := name
    walletAddress := walletAddress
    maxDailySpend := maxDailySpend
    spendingToday := 0
    transactions := [] }

/-- `canAfford(amount)`: `maxDailySpend - spendingToday >= amount`. -/
def canAfford (s : AgentState) (amount : ℚ) : Bool :=
  decide (amount ≤ s.maxDailySpend - s.spendingToday)

/-- The JavaScript errors that can propagate out of the embedded code:
the locally thrown budget error of `executePayment`, a transport error
re-raised from the x402 client, and the `TypeError` raised by a property
access on `null`. -/
inductive JsError where
  | insufficientBudget (remaining : ℚ)
  | transport (message : String)
  | typeError (message : String)
deriving DecidableEq, Repr

/-- Environment for one paid call: the ISO timestamp taken at completion and
the transport outcome — either an error message (a rejected promise from the
client) or the typed response `data` together with the optional
`x-request-id` header and the measured duration in milliseconds. -/
structure CallEnv (α : Type) where
  timestamp : String
  outcome : Except String (α × Option String × Nat)

/-- `executePayment(endpoint, amount, method, data)`: throws the
`Insufficient budget` error when `canAfford` fails (state untouched);
otherwise, on transport success it appends a success transaction and adds
`amount` to `spendingToday`; on transport failure it appends a failed
transaction, leaves `spendingToday` unchanged and re-raises the error.
The new state is returned alongside the result because a JavaScript throw
leaves the already-performed mutations in place. -/
def executePayment {α : Type} (s : AgentState) (endpoint : String) (amount : ℚ)
    (method : String) (env : CallEnv α) : AgentState × Except JsError α :=
  if !canAfford s amount then
    (s, Except.error (JsError.insufficientBudget (s.maxDailySpend - s.spendingToday)))
  else
    match env.outcome with
    | Except.ok (respData, reqId, durationMs) =>
        let tx : Transaction :=
          { timestamp := env.timestamp
            endpoint := endpoint
            amount := amount
            duration := some durationMs
            status := TxStatus.success
            requestId := reqId
            errMsg := none }
        ({ s with transactions := s.transactions ++ [tx]
                  spendingToday := s.spendingToday + amount },
         Except.ok respData)
    | Except.error msg =>
        let tx : Transaction :=
          { timestamp := env.timestamp
            endpoint := endpoint
            amount := amount
            duration := none
            status := TxStatus.failed
            requestId := none
            errMsg := some msg }
        ({ s with transactions := s.transactions ++ [tx] },
         Except.error (JsError.transport msg))

/-- `data.signals` of the market-intelligence response. -/
structure MarketSignals where
  trend : String
  strength : ℚ
  volatility : ℚ
deriving DecidableEq, Repr

/-- `data` of the market-intelligence response. -/
structure MarketPayload where
  price : ℚ
  signals : MarketSignals
  volume : ℚ
deriving DecidableEq, Repr

/-- Market-intelligence response as returned by `executePayment`
(the workflows read `marketData.data.…`). -/
structure MarketResp where
  data : MarketPayload
deriving DecidableEq, Repr

/-- `data` of the sentiment-analysis response. -/
structure SentimentPayload where
  sentiment : String
  score : ℚ
deriving DecidableEq, Repr

/-- Sentiment-analysis response (`sentiment.data.…`). -/
structure SentimentResp where
  data : SentimentPayload
deriving DecidableEq, Repr

/-- `data` of the price-prediction response. -/
structure PredictionPayload where
  currentPrice : ℚ
  predictedPrice : ℚ
  change : ℚ
deriving DecidableEq, Repr

/-- `_meta` of the price-prediction response. -/
structure PredMeta where
  confidence : ℚ
deriving DecidableEq, Repr

/-- Price-prediction response (`prediction.data.…`, `prediction._meta.…`). -/
structure PredictionResp where
  data : PredictionPayload
  meta : PredMeta
deriving DecidableEq, Repr

/-- `makeDecision(marketData, sentiment, prediction)`.  The first condition is
`priceChange > 5 && confidence > 0.7 && sentiment.data.sentiment === 'positive'`,
evaluated left to right with short-circuiting: the `sentiment.data` access only
happens when the two numeric comparisons already hold, and raises a `TypeError`
when `sentiment` is `null` (as in the strong-signal branch of `smartAnalysis`,
which passes `null`). -/
def makeDecision (marketData : MarketResp) (sentiment : Option SentimentResp)
    (prediction : PredictionResp) : Except JsError String :=
  let priceChange := prediction.data.change
  let confidence := prediction.meta.confidence
  if priceChange > 5 ∧ confidence > 0.7 then
    match sentiment with
    | none =>
        Except.error (JsError.typeError "Cannot read properties of null (reading 'data')")
    | some sen =>
        if sen.data.sentiment = "positive" then Except.ok "BUY"
        else if priceChange < -5 ∧ confidence > 0.7 then Except.ok "SELL"
        else Except.ok "HOLD"
  else if priceChange < -5 ∧ confidence > 0.7 then Except.ok "SELL"
  else Except.ok "HOLD"

/-- `getMarketNews(symbol)`: a fixed template string; pure. -/
def getMarketNews (symbol : String) : String :=
  symbol ++ " shows strong momentum. Institutional investors are accumulating. \n    Technical indicators suggest breakout potential. Volume increasing significantly."

/-- Result object of `analyzeMarketAndDecide`.  The full path returns
`{symbol, decision, confidence, totalSpent, analysis}`; the early path returns
`{symbol, decision: 'HOLD', reason, totalSpent}` — absent keys are `none`. -/
structure AnalysisOutcome where
  symbol : String
  decision : String
  reason : Option String
  confidence : Option ℚ
  totalSpent : ℚ
  analysis : Option (MarketResp × SentimentResp × PredictionResp)
deriving DecidableEq, Repr

/-- Transport environments for the up-to-three paid calls of one deep or
smart analysis: market signal, sentiment, prediction. -/
structure DeepEnv where
  sig : CallEnv MarketResp
  sent : CallEnv SentimentResp
  pred : CallEnv PredictionResp

/-- `analyzeMarketAndDecide(symbol)`: fetch market intelligence ($0.005);
if `strength > 0.7`, fetch sentiment ($0.02); if moreover the sentiment is
`positive` and the trend `bullish`, fetch the prediction ($0.10) and return
`makeDecision` with `totalSpent: 0.005 + 0.02 + 0.10`; every other
non-throwing path falls through to the single
`{decision: 'HOLD', reason: 'Signal not strong enough for deep analysis',
totalSpent: 0.005}` return.  The surrounding `try/catch` only logs and
re-throws, so errors propagate with the state mutations kept. -/
def analyzeMarketAndDecide (s : AgentState) (symbol : String) (env : DeepEnv) :
    AgentState × Except JsError AnalysisOutcome :=
  let (s1, r1) := executePayment s
    ("/api/v1/data/market-intelligence?symbol=" ++ symbol) 0.005 "GET" env.sig
  match r1 with
  | Except.error e => (s1, Except.error e)
  | Except.ok marketData =>
    if marketData.data.signals.strength > 0.7 then
      let newsText := getMarketNews symbol
      let (s2, r2) := executePayment s1
        "/api/v1/models/sentiment-analysis" 0.02 "POST" env.sent
      match r2 with
      | Except.error e => (s2, Except.error e)
      | Except.ok sentiment =>
        if sentiment.data.sentiment = "positive" ∧
            marketData.data.signals.trend = "bullish" then
          let (s3, r3) := executePayment s2
            "/api/v1/models/price-prediction" 0.10 "POST" env.pred
          match r3 with
          | Except.error e => (s3, Except.error e)
          | Except.ok prediction =>
            match makeDecision marketData (some sentiment) prediction with
            | Except.error e => (s3, Except.error e)
            | Except.ok decision =>
                (s3, Except.ok
                  { symbol := symbol
                    decision := decision
                    reason := none
                    confidence := some prediction.meta.confidence
                    totalSpent := 0.005 + 0.02 + 0.10
                    analysis := some (marketData, sentiment, prediction) })
        else
          (s2, Except.ok
            { symbol := symbol
              decision := "HOLD"
              reason := some "Signal not strong enough for deep analysis"
              confidence := none
              totalSpent := 0.005
              analysis := none })
    else
      (s1, Except.ok
        { symbol := symbol
          decision := "HOLD"
          reason := some "Signal not strong enough for deep analysis"
          confidence := none
          totalSpent := 0.005
          analysis := none })

/-- Result object of `smartAnalysis`.  The weak-signal path returns
`{decision: 'PASS', reason}` with no `totalSpent` key at all, hence the
`Option`. -/
structure SmartResult where
  decision : String
  reason : Option String
  totalSpent : Option ℚ
deriving DecidableEq, Repr

/-- `smartAnalysis(symbol)`: market signal first ($0.005); `strength < 0.5` →
`PASS`; `strength < 0.8` → sentiment ($0.02), then prediction ($0.10) only if
`sentiment.data.sentiment === marketData.data.signals.trend`, else `HOLD`;
otherwise (strength ≥ 0.8) straight to prediction with
`makeDecision(marketData, null, prediction)`. -/
def smartAnalysis (s : AgentState) (symbol : String) (env : DeepEnv) :
    AgentState × Except JsError SmartResult :=
  let (s1, r1) := executePayment s
    ("/api/v1/data/market-intelligence?symbol=" ++ symbol) 0.005 "GET" env.sig
  match r1 with
  | Except.error e => (s1, Except.error e)
  | Except.ok marketData =>
    let signalStrength := marketData.data.signals.strength
    if signalStrength < 0.5 then
      (s1, Except.ok
        { decision := "PASS"
          reason := some "Weak signal, not worth deeper analysis"
          totalSpent := none })
    else if signalStrength < 0.8 then
      let newsText := getMarketNews symbol
      let (s2, r2) := executePayment s1
        "/api/v1/models/sentiment-analysis" 0.02 "POST" env.sent
      match r2 with
      | Except.error e => (s2, Except.error e)
      | Except.ok sentiment =>
        if sentiment.data.sentiment = marketData.data.signals.trend then
          let (s3, r3) := executePayment s2
            "/api/v1/models/price-prediction" 0.10 "POST" env.pred
          match r3 with
          | Except.error e => (s3, Except.error e)
          | Except.ok prediction =>
            match makeDecision marketData (some sentiment) prediction with
            | Except.error e => (s3, Except.error e)
            | Except.ok decision =>
                (s3, Except.ok
                  { decision := decision
                    reason := none
                    totalSpent := some (0.005 + 0.02 + 0.10) })
        else
          (s2, Except.ok
            { decision := "HOLD"
              reason := some "Sentiment does not confirm signal"
              totalSpent := some (0.005 + 0.02) })
    else
      let (s2, r2) := executePayment s1
        "/api/v1/models/price-prediction" 0.10 "POST" env.pred
      match r2 with
      | Except.error e => (s2, Except.error e)
      | Except.ok prediction =>
        match makeDecision marketData none prediction with
        | Except.error e => (s2, Except.error e)
        | Except.ok decision =>
            (s2, Except.ok
              { decision := decision
                reason := none
                totalSpent := some (0.005 + 0.10) })

/-- One entry of the result list of `analyzeBatch`: the pushed object is
either a full `analyzeMarketAndDecide` result, the
`{symbol, decision: 'SKIP', reason, totalSpent}` object, or the
`{symbol, decision: 'ERROR', error, totalSpent}` object built in the
`catch` block. -/
inductive BatchEntry where
  | full (r : AnalysisOutcome)
  | skip (symbol : String) (reason : String) (totalSpent : ℚ)
  | err (symbol : String) (e : JsError) (totalSpent : ℚ)
deriving DecidableEq, Repr

/-- Transport environments for one batch symbol: the cheap signal call the
batch itself performs, plus the three calls of the nested
`analyzeMarketAndDecide` (which pays for market intelligence again). -/
structure SymbolEnv where
  sig : CallEnv MarketResp
  deep : DeepEnv

/-- The `try` body of one `analyzeBatch` iteration: pay for market
intelligence ($0.005); if `strength > 0.8` run the full
`analyzeMarketAndDecide`, else produce the `SKIP` entry.  An `Except.error`
is the exception the `catch` block of the loop will receive. -/
def batchStep (s : AgentState) (symbol : String) (env : SymbolEnv) :
    AgentState × Except JsError BatchEntry :=
  let (s1, r1) := executePayment s
    ("/api/v1/data/market-intelligence?symbol=" ++ symbol) 0.005 "GET" env.sig
  match r1 with
  | Except.error e => (s1, Except.error e)
  | Except.ok marketData =>
    if marketData.data.signals.strength > 0.8 then
      match analyzeMarketAndDecide s1 symbol env.deep with
      | (s2, Except.error e) => (s2, Except.error e)
      | (s2, Except.ok r) => (s2, Except.ok (BatchEntry.full r))
    else
      (s1, Except.ok (BatchEntry.skip symbol "Weak signals" 0.005))

/-- `analyzeBatch(symbols)`: for each symbol run the `try` body; on an
exception push the `ERROR` entry (cost 0) and continue with the next symbol
— the budget check sits inside the `try`, after the push, so it is skipped
on the exception path; on success push the entry and stop (`break`) when
`spendingToday >= maxDailySpend * 0.9`.  The partial list is returned
normally in every case. -/
def analyzeBatch (s : AgentState) (items : List (String × SymbolEnv)) :
    AgentState × List BatchEntry :=
  match items with
  | [] => (s, [])
  | (symbol, env) :: rest =>
    match batchStep s symbol env with
    | (s1, Except.error e) =>
        let (s2, tail) := analyzeBatch s1 rest
        (s2, BatchEntry.err symbol e 0 :: tail)
    | (s1, Except.ok entry) =>
        if s1.maxDailySpend * 0.9 ≤ s1.spendingToday then
          (s1, [entry])
        else
          let (s2, tail) := analyzeBatch s1 rest
          (s2, entry :: tail)

/-- Per-endpoint aggregate of `groupByEndpoint`: `{count, totalCost}`. -/
structure EndpointAgg where
  count : Nat
  totalCost : ℚ
deriving DecidableEq, Repr

/-- One step of the `forEach` in `groupByEndpoint`: a JavaScript object keyed
by endpoint, new keys appended in insertion order, an existing key updated in
place (`count++`, `totalCost += amount`). -/
def addToGroup : List (String × EndpointAgg) → String → ℚ → List (String × EndpointAgg)
  | [], endpoint, amount => [(endpoint, { count := 1, totalCost := amount })]
  | (k, agg) :: rest, endpoint, amount =>
      if k = endpoint then
        (k, { count := agg.count + 1, totalCost := agg.totalCost + amount }) :: rest
      else
        (k, agg) :: addToGroup rest endpoint amount

/-- `groupByEndpoint()`: aggregates only the transactions with
`status === 'success'`. -/
def groupByEndpoint (txs : List Transaction) : List (String × EndpointAgg) :=
  (txs.filter fun t => t.status == TxStatus.success).foldl
    (fun acc t => addToGroup acc t.endpoint t.amount) []

/-- JavaScript division on the rational fragment: `none` stands for the
non-finite result (`NaN` or an infinity) produced when the denominator is 0 —
in the spending report the numerator is 0 whenever the denominator is, so the
`none` cases there are exactly the `NaN` outputs. -/
def jsDiv (a b : ℚ) : Option ℚ :=
  if b = 0 then none else some (a / b)

/-- The spending report object.  `budgetUtilization` and `successRate` hold
the numeric value the source formats with `toFixed(1)` and a `%` suffix;
`none` is `NaN`. -/
structure SpendingReport where
  agent : String
  wallet : String
  period : String
  budgetMax : ℚ
  budgetSpent : ℚ
  budgetRemaining : ℚ
  budgetUtilization : Option ℚ
  txTotal : Nat
  txSuccessful : Nat
  txFailed : Nat
  successRate : Option ℚ
  endpoints : List (String × EndpointAgg)
  timestamp : String
deriving DecidableEq, Repr

/-- `getSpendingReport()`: pure aggregation of the agent state plus the
wall-clock timestamp `new Date().toISOString()` taken at the call, passed in
as `now`. -/
def getSpendingReport (s : AgentState) (now : String) : SpendingReport :=
  let successful := s.transactions.filter fun t => t.status == TxStatus.success
  let failed := s.transactions.filter fun t => t.status == TxStatus.failed
  { agent := s.name
    wallet := s.walletAddress
    period := "today"
    budgetMax := s.maxDailySpend
    budgetSpent := s.spendingToday
    budgetRemaining := s.maxDailySpend - s.spendingToday
    budgetUtilization := (jsDiv s.spendingToday s.maxDailySpend).map (· * 100)
    txTotal := s.transactions.length
    txSuccessful := successful.length
    txFailed := failed.length
    successRate :=
      (jsDiv (successful.length : ℚ) (s.transactions.length : ℚ)).map (· * 100)
    endpoints := groupByEndpoint s.transactions
    timestamp := now }

/-- One abstract paid call of a workflow: every debit and every ledger append
of the agent goes through `executePayment`, so a sequence of workflow
operations is, at the ledger level, a sequence of these. -/
structure PayCall where
  endpoint : String
  amount : ℚ
  method : String
  env : CallEnv Unit

/-- State effect of one abstract paid call. -/
def payStep (s : AgentState) (c : PayCall) : AgentState :=
  (executePayment s c.endpoint c.amount c.method c.env).1

/-- State after a sequence of paid calls. -/
def runCalls (s : AgentState) (calls : List PayCall) : AgentState :=
  calls.foldl payStep s

/-- Total amount of the successful transactions of a ledger — the amounts
`executePayment` has added to `spendingToday`. -/
def successSpend (txs : List Transaction) : ℚ :=
  ((txs.filter fun t => t.status == TxStatus.success).map
    fun t => t.amount).sum

/-- Sum of `totalCost` over a per-endpoint aggregation. -/
def sumAgg (l : List (String × EndpointAgg)) : ℚ :=
  (l.map fun p => p.2.totalCost).sum

/-- Fixture: a successful transport outcome delivering `a`. -/
def okEnv {α : Type} (a : α) : CallEnv α :=
  { timestamp := "t", outcome := Except.ok (a, some "rid", 5) }

/-- Fixture: a failed transport outcome with message `msg`. -/
def failEnv (α : Type) (msg : String) : CallEnv α :=
  { timestamp := "t", outcome := Except.error msg }

/-- Fixture: a market-intelligence response with the given trend and
strength. -/
def mkMarket (trend : String) (strength : ℚ) : MarketResp :=
  { data :=
    { price := 100
      signals := { trend := trend, strength := strength, volatility := 1 }
      volume := 2 } }

/-- Fixture: a sentiment response with the given label. -/
def mkSent (lab : String) : SentimentResp :=
  { data := { sentiment := lab, score := 1 } }

/-- Fixture: a prediction response with the given percent change and
confidence. -/
def mkPred (change conf : ℚ) : PredictionResp :=
  { data := { currentPrice := 100, predictedPrice := 106, change := change }
    meta := { confidence := conf } }

/-- C7: when the attempted cost exceeds the remaining budget, `executePayment`
raises the budget error, appends no transaction and leaves the whole agent
state — in particular `spendingToday` — exactly as before the attempt. -/
theorem executePayment_budget_exceeded {α : Type} (s : AgentState)
    (endpoint : String) (amount : ℚ) (method : String) (env : CallEnv α)
    (h : s.maxDailySpend - s.spendingToday < amount) :
    executePayment s endpoint amount method env =
      (s, Except.error
        (JsError.insufficientBudget (s.maxDailySpend - s.spendingToday))) := by
  have hn : ¬ (amount ≤ s.maxDailySpend - s.spendingToday) := not_le.mpr h
  simp [executePayment, canAfford, hn]

/-- Witness for C7 at a concrete over-budget call on a fresh agent with a
zero cap. -/
theorem executePayment_budget_exceeded_check :
    (initState "a" "w" 0).maxDailySpend - (initState "a" "w" 0).spendingToday <
        (1 : ℚ) ∧
    executePayment (initState "a" "w" 0) "/api/v1/x" 1 "GET" (okEnv ()) =
      ((initState "a" "w" 0), Except.error
        (JsError.insufficientBudget
          ((initState "a" "w" 0).maxDailySpend -
            (initState "a" "w" 0).spendingToday))) :=
  ⟨by norm_num [initState],
   executePayment_budget_exceeded _ _ _ _ _ (by norm_num [initState])⟩

/-- C8: when the transport fails on an affordable call, `executePayment`
appends exactly one failed transaction carrying the endpoint, the cost and the
error description, leaves `spendingToday` unchanged, and re-raises the error
as a transport error. -/
theorem executePayment_transport_failure {α : Type} (s : AgentState)
    (endpoint : String) (amount : ℚ) (method : String) (env : CallEnv α)
    (msg : String) (hafford : canAfford s amount = true)
    (henv : env.outcome = Except.error msg) :
    executePayment s endpoint amount method env =
      ({ s with transactions := s.transactions ++
          [{ timestamp := env.timestamp
             endpoint := endpoint
             amount := amount
             duration := none
             status := TxStatus.failed
             requestId := none
             errMsg := some msg }] },
       Except.error (JsError.transport msg)) := by
  simp [executePayment, hafford, henv]

/-- Witness for C8 at a concrete failing call on a fresh agent. -/
theorem executePayment_transport_failure_check :
    canAfford (initState "a" "w" 10) 0.005 = true ∧
    (failEnv MarketResp "boom").outcome = Except.error "boom" ∧
    executePayment (initState "a" "w" 10) "/api/v1/x" 0.005 "GET"
        (failEnv MarketResp "boom") =
      ({ initState "a" "w" 10 with
          transactions := (initState "a" "w" 10).transactions ++
            [{ timestamp := (failEnv MarketResp "boom").timestamp
               endpoint := "/api/v1/x"
               amount := 0.005
               duration := none
               status := TxStatus.failed
               requestId := none
               errMsg := some "boom" }] },
       Except.error (JsError.transport "boom")) :=
  ⟨by norm_num [canAfford, initState],
   rfl,
   executePayment_transport_failure _ _ _ _ _ _
     (by norm_num [canAfford, initState]) rfl⟩

/-- C4, counterexample: on the empty ledger the success rate is not 0 — the
source divides `0 / 0`, which is `NaN`, modelled as `none`. -/
theorem successRate_empty_not_zero :
    (getSpendingReport (initState "a" "w" 10) "t0").successRate ≠ some 0 := by
  simp [getSpendingReport, initState, jsDiv]

/-- C4, amended: with zero transactions `getSpendingReport` still returns a
report (no exception is raised — JavaScript division by zero does not throw),
but its success rate is the `NaN` value of `0 / 0`, not 0. -/
theorem successRate_empty_is_nan (s : AgentState) (now : String)
    (h : s.transactions = []) :
    (getSpendingReport s now).successRate = none := by
  simp [getSpendingReport, h, jsDiv]

/-- Witness for the amended C4 on a fresh agent. -/
theorem successRate_empty_is_nan_check :
    (initState "a" "w" 10).transactions = [] ∧
    (getSpendingReport (initState "a" "w" 10) "t0").successRate = none :=
  ⟨rfl, successRate_empty_is_nan _ "t0" rfl⟩

/-- C5, counterexample: two calls of `getSpendingReport` with no intervening
mutation do not yield identical outputs — the `timestamp` field records the
wall-clock time of each call. -/
theorem report_not_time_independent :
    getSpendingReport (initState "a" "w" 10) "t1" ≠
      getSpendingReport (initState "a" "w" 10) "t2" := by
  intro h
  have h2 := congrArg SpendingReport.timestamp h
  simp [getSpendingReport] at h2

/-- C5, amended: every field of the spending report other than `timestamp` is
a deterministic function of the agent state alone, so two calls with no
intervening mutation agree once the timestamp field is set aside. -/
theorem report_deterministic_up_to_timestamp (s : AgentState)
    (t1 t2 t : String) :
    { getSpendingReport s t1 with timestamp := t } =
      { getSpendingReport s t2 with timestamp := t } :=
  rfl

/-- Fixture for C9: market strength exactly 0.5 (boundary of the medium
band), trend `bullish`, non-confirming sentiment, mild prediction. -/
def env05 : DeepEnv :=
  { sig := okEnv (mkMarket "bullish" 0.5)
    sent := okEnv (mkSent "negative")
    pred := okEnv (mkPred 1 0.5) }

/-- Fixture for C9: market strength exactly 0.8 (boundary of the strong
band). -/
def env08 : DeepEnv :=
  { sig := okEnv (mkMarket "bullish" 0.8)
    sent := okEnv (mkSent "negative")
    pred := okEnv (mkPred 1 0.5) }

/-- Fixture for C9: market strength 0.4999, just under the weak/medium
boundary. -/
def env04999 : DeepEnv :=
  { sig := okEnv (mkMarket "bullish" 0.4999)
    sent := okEnv (mkSent "negative")
    pred := okEnv (mkPred 1 0.5) }

/-- C9: boundary values belong to the higher tier.  At strength 0.5 the smart
analysis takes the medium branch — the sentiment endpoint is paid, the result
is not `PASS`; at strength 0.8 it takes the strong branch — the sentiment
tier is skipped and the prediction endpoint is paid directly, with spend
C1 + C3; at strength 0.4999 it takes the weak branch and returns `PASS` with
only the signal call made. -/
theorem classifySignal_boundaries :
    ((smartAnalysis (initState "a" "w" 10) "AAA" env05).2 =
        Except.ok { decision := "HOLD"
                    reason := some "Sentiment does not confirm signal"
                    totalSpent := some 0.025 } ∧
      ((smartAnalysis (initState "a" "w" 10) "AAA" env05).1.transactions.map
          fun t => t.endpoint) =
        ["/api/v1/data/market-intelligence?symbol=AAA",
         "/api/v1/models/sentiment-analysis"]) ∧
    ((smartAnalysis (initState "a" "w" 10) "AAA" env08).2 =
        Except.ok { decision := "HOLD"
                    reason := none
                    totalSpent := some 0.105 } ∧
      ((smartAnalysis (initState "a" "w" 10) "AAA" env08).1.transactions.map
          fun t => t.endpoint) =
        ["/api/v1/data/market-intelligence?symbol=AAA",
         "/api/v1/models/price-prediction"]) ∧
    ((smartAnalysis (initState "a" "w" 10) "AAA" env04999).2 =
        Except.ok { decision := "PASS"
                    reason := some "Weak signal, not worth deeper analysis"
                    totalSpent := none } ∧
      (smartAnalysis (initState "a" "w" 10) "AAA" env04999).1.transactions.length
        = 1) := by
  have hs1 : ("negative" : String) ≠ "bullish" := by decide
  have happ : "/api/v1/data/market-intelligence?symbol=" ++ "AAA" =
      "/api/v1/data/market-intelligence?symbol=AAA" := rfl
  refine ⟨⟨?_, ?_⟩, ⟨?_, ?_⟩, ?_, ?_⟩ <;>
    norm_num [smartAnalysis, executePayment, canAfford, makeDecision, initState,
      env05, env08, env04999, okEnv, mkMarket, mkSent, mkPred, hs1, happ]

/-- Fixture for C1: strength 0.8 escalates to the sentiment tier, whose
`negative` label blocks the prediction tier. -/
def envHold : DeepEnv :=
  { sig := okEnv (mkMarket "bullish" 0.8)
    sent := okEnv (mkSent "negative")
    pred := okEnv (mkPred 6 0.8) }

/-- C1, violation exhibited: with strength 0.8 the deep analysis executes the
signal and sentiment tiers — `spendingToday` grows by 0.005 + 0.02 and the
ledger records both paid calls — yet the early `HOLD` result reports
`totalSpent` of only 0.005, not the 0.025 actually spent. -/
theorem analyzeMarket_hold_misreports_spend :
    (analyzeMarketAndDecide (initState "a" "w" 10) "BTC" envHold).2 =
      Except.ok { symbol := "BTC"
                  decision := "HOLD"
                  reason := some "Signal not strong enough for deep analysis"
                  confidence := none
                  totalSpent := 0.005
                  analysis := none } ∧
    (analyzeMarketAndDecide (initState "a" "w" 10) "BTC" envHold).1.spendingToday
      = 0.025 ∧
    ((analyzeMarketAndDecide (initState "a" "w" 10) "BTC" envHold).1.transactions.map
        fun t => (t.endpoint, t.amount, t.status)) =
      [("/api/v1/data/market-intelligence?symbol=BTC", 0.005, TxStatus.success),
       ("/api/v1/models/sentiment-analysis", 0.02, TxStatus.success)] := by
  have hs1 : ("negative" : String) ≠ "positive" := by decide
  have happ : "/api/v1/data/market-intelligence?symbol=" ++ "BTC" =
      "/api/v1/data/market-intelligence?symbol=BTC" := rfl
  refine ⟨?_, ?_, ?_⟩ <;>
    norm_num [analyzeMarketAndDecide, executePayment, canAfford, initState,
      envHold, okEnv, mkMarket, mkSent, hs1, happ]

/-- Fixture for C3: strong signal (0.9) and a prediction with change 6% and
confidence 0.8 — the combination that sends `makeDecision` into the
`sentiment.data` access with `sentiment = null`. -/
def envStrong : DeepEnv :=
  { sig := okEnv (mkMarket "bullish" 0.9)
    sent := okEnv (mkSent "positive")
    pred := okEnv (mkPred 6 0.8) }

/-- C3, violation exhibited: at strength 0.9 the smart analysis does skip
sentiment, pays C1 + C3 and appends 2 transactions, but the decision step then
raises a `TypeError` — `makeDecision(marketData, null, prediction)`
dereferences the `null` sentiment once change > 5 and confidence > 0.7 — so
the workflow does not terminate with a Decision value. -/
theorem smartAnalysis_strong_typeError :
    (smartAnalysis (initState "a" "w" 10) "BTC" envStrong).2 =
      Except.error
        (JsError.typeError "Cannot read properties of null (reading 'data')") ∧
    (smartAnalysis (initState "a" "w" 10) "BTC" envStrong).1.spendingToday
      = 0.105 ∧
    (smartAnalysis (initState "a" "w" 10) "BTC" envStrong).1.transactions.length
      = 2 := by
  refine ⟨?_, ?_, ?_⟩ <;>
    norm_num [smartAnalysis, executePayment, canAfford, makeDecision, initState,
      envStrong, okEnv, mkMarket, mkSent, mkPred]

/-- Fixture for C6: an agent that has already spent 9.5 of its 10 cap —
above the 0.9 · cap batch threshold. -/
def s95 : AgentState :=
  { name := "a"
    walletAddress := "w"
    maxDailySpend := 10
    spendingToday := 9.5
    transactions := [] }

/-- Fixture for C6: a symbol whose signal call fails in transport. -/
def itemA : String × SymbolEnv :=
  ("A", { sig := failEnv MarketResp "boom"
          deep := { sig := failEnv MarketResp "x"
                    sent := failEnv SentimentResp "x"
                    pred := failEnv PredictionResp "x" } })

/-- Fixture for C6: a symbol with a weak signal that gets a `SKIP` entry. -/
def itemB : String × SymbolEnv :=
  ("B", { sig := okEnv (mkMarket "bullish" 0.3)
          deep := { sig := failEnv MarketResp "x"
                    sent := failEnv SentimentResp "x"
                    pred := failEnv PredictionResp "x" } })

/-- C6, counterexample: after symbol `A` — recorded as an `ERROR` entry — the
spend (9.5) is at least 0.9 · cap (9), yet the remaining symbol `B` is still
processed (the batch returns two entries, the second a paid `SKIP`): on the
exception path the loop continues without the budget check, so the claim as
stated fails. -/
theorem batch_error_path_skips_budget_check :
    (analyzeBatch s95 [itemA]).1.maxDailySpend * 0.9 ≤
        (analyzeBatch s95 [itemA]).1.spendingToday ∧
    (analyzeBatch s95 [itemA, itemB]).2 =
      [BatchEntry.err "A" (JsError.transport "boom") 0,
       BatchEntry.skip "B" "Weak signals" 0.005] := by
  refine ⟨?_, ?_⟩ <;>
    norm_num [analyzeBatch, batchStep, executePayment, canAfford, s95, itemA,
      itemB, failEnv, okEnv, mkMarket]

/-- C6, amended: after a symbol whose `try` body completed without an
exception, if `spendingToday` has reached `0.9 · maxDailySpend` the batch
stops — the partial result list is returned normally, no remaining symbol is
touched; after a symbol whose processing raised (recorded as an `ERROR`
entry at cost 0) the loop continues with the remaining symbols without
performing the budget check. -/
theorem analyzeBatch_early_termination (s : AgentState) (symbol : String)
    (env : SymbolEnv) (rest : List (String × SymbolEnv)) (s1 : AgentState)
    (entry : BatchEntry) :
    (batchStep s symbol env = (s1, Except.ok entry) →
      s1.maxDailySpend * 0.9 ≤ s1.spendingToday →
      analyzeBatch s ((symbol, env) :: rest) = (s1, [entry])) ∧
    (∀ e : JsError, batchStep s symbol env = (s1, Except.error e) →
      analyzeBatch s ((symbol, env) :: rest) =
        ((analyzeBatch s1 rest).1,
          BatchEntry.err symbol e 0 :: (analyzeBatch s1 rest).2)) := by
  constructor
  · intro hstep hb
    simp [analyzeBatch, hstep, hb]
  · intro e hstep
    simp [analyzeBatch, hstep]

/-- Fixture for the C6 witness: an agent that has spent 9 of its 10 cap. -/
def s90 : AgentState :=
  { name := "a"
    walletAddress := "w"
    maxDailySpend := 10
    spendingToday := 9
    transactions := [] }

/-- Fixture for the C6 witness: the state of `s90` after the weak-signal
call of symbol `A` succeeded. -/
def s90A : AgentState :=
  { name := "a"
    walletAddress := "w"
    maxDailySpend := 10
    spendingToday := 9 + 0.005
    transactions :=
      [{ timestamp := "t"
         endpoint := "/api/v1/data/market-intelligence?symbol=A"
         amount := 0.005
         duration := some 5
         status := TxStatus.success
         requestId := some "rid"
         errMsg := none }] }

/-- Witness for the amended C6: with 9 of a 10 cap already spent, symbol `A`
gets its paid `SKIP` entry, the spend reaches 9.005 ≥ 0.9 · 10, and the batch
returns that single entry without touching symbol `B`. -/
theorem analyzeBatch_early_termination_check :
    batchStep s90 "A" itemB.2 =
      (s90A, Except.ok (BatchEntry.skip "A" "Weak signals" 0.005)) ∧
    s90A.maxDailySpend * 0.9 ≤ s90A.spendingToday ∧
    analyzeBatch s90 [("A", itemB.2), itemB] =
      (s90A, [BatchEntry.skip "A" "Weak signals" 0.005]) := by
  have happ : "/api/v1/data/market-intelligence?symbol=" ++ "A" =
      "/api/v1/data/market-intelligence?symbol=A" := rfl
  have hstep : batchStep s90 "A" itemB.2 =
      (s90A, Except.ok (BatchEntry.skip "A" "Weak signals" 0.005)) := by
    norm_num [batchStep, executePayment, canAfford, s90, s90A, itemB, okEnv,
      mkMarket, happ]
  exact ⟨hstep, by norm_num [s90A],
    (analyzeBatch_early_termination s90 "A" itemB.2 [itemB] s90A
        (BatchEntry.skip "A" "Weak signals" 0.005)).1
      hstep (by norm_num [s90A])⟩

/-- Shape lemma for one abstract paid call: either the budget gate refuses it
and the state is untouched, or a success transaction of the call's amount is
appended and charged (only possible when the amount fits the remaining
budget), or a failed transaction is appended uncharged. -/
theorem payStep_spec (s : AgentState) (c : PayCall) :
    payStep s c = s ∨
    (∃ tx : Transaction, tx.status = TxStatus.success ∧ tx.amount = c.amount ∧
      c.amount ≤ s.maxDailySpend - s.spendingToday ∧
      payStep s c = { s with transactions := s.transactions ++ [tx]
                             spendingToday := s.spendingToday + c.amount }) ∨
    (∃ tx : Transaction, tx.status = TxStatus.failed ∧
      payStep s c = { s with transactions := s.transactions ++ [tx] }) := by
  by_cases h : c.amount ≤ s.maxDailySpend - s.spendingToday
  · rcases henv : c.env.outcome with msg | ⟨a, rid, d⟩
    · refine Or.inr (Or.inr
        ⟨{ timestamp := c.env.timestamp
           endpoint := c.endpoint
           amount := c.amount
           duration := none
           status := TxStatus.failed
           requestId := none
           errMsg := some msg }, rfl, ?_⟩)
      simp [payStep, executePayment, canAfford, h, henv]
    · refine Or.inr (Or.inl
        ⟨{ timestamp := c.env.timestamp
           endpoint := c.endpoint
           amount := c.amount
           duration := some d
           status := TxStatus.success
           requestId := rid
           errMsg := none }, rfl, rfl, h, ?_⟩)
      simp [payStep, executePayment, canAfford, h, henv]
  · left
    simp [payStep, executePayment, canAfford, h]

/-- The cap is fixed at construction: no paid call changes it. -/
theorem payStep_maxDailySpend (s : AgentState) (c : PayCall) :
    (payStep s c).maxDailySpend = s.maxDailySpend := by
  rcases payStep_spec s c with h | ⟨tx, _, _, _, h⟩ | ⟨tx, _, h⟩ <;> rw [h]

/-- One abstract paid call keeps `spendingToday` within the cap. -/
theorem payStep_spending_le (s : AgentState) (c : PayCall)
    (h : s.spendingToday ≤ s.maxDailySpend) :
    (payStep s c).spendingToday ≤ s.maxDailySpend := by
  rcases payStep_spec s c with h1 | ⟨tx, _, _, hc, h1⟩ | ⟨tx, _, h1⟩ <;> rw [h1]
  · exact h
  · show s.spendingToday + c.amount ≤ s.maxDailySpend
    linarith
  · exact h

/-- A refused call (cost above the remaining budget) leaves the state — the
ledger and the spend counter — exactly as it was. -/
theorem payStep_refused (s : AgentState) (c : PayCall)
    (h : s.maxDailySpend - s.spendingToday < c.amount) :
    payStep s c = s := by
  have hn : ¬ (c.amount ≤ s.maxDailySpend - s.spendingToday) := not_le.mpr h
  simp [payStep, executePayment, canAfford, hn]

/-- The cap is preserved along any sequence of paid calls. -/
theorem runCalls_maxDailySpend (calls : List PayCall) (s : AgentState) :
    (runCalls s calls).maxDailySpend = s.maxDailySpend := by
  induction calls generalizing s with
  | nil => rfl
  | cons c cs ih =>
      show (runCalls (payStep s c) cs).maxDailySpend = s.maxDailySpend
      rw [ih, payStep_maxDailySpend]

/-- The budget bound is preserved along any sequence of paid calls. -/
theorem runCalls_spending_le (calls : List PayCall) (s : AgentState)
    (h : s.spendingToday ≤ s.maxDailySpend) :
    (runCalls s calls).spendingToday ≤ s.maxDailySpend := by
  induction calls generalizing s with
  | nil => exact h
  | cons c cs ih =>
      show (runCalls (payStep s c) cs).spendingToday ≤ s.maxDailySpend
      have h1 := payStep_spending_le s c h
      have h2 := ih (payStep s c) (by rw [payStep_maxDailySpend]; exact h1)
      rwa [payStep_maxDailySpend] at h2

/-- C2: for every sequence of paid workflow calls on one agent — each guarded
by `canAfford` inside `executePayment` — starting from a fresh agent with a
non-negative cap and non-negative call costs, `spendingToday` never exceeds
`maxDailySpend` after any step of the sequence, and a call whose cost exceeds
the remaining budget is never executed: it is refused with the state
unchanged. -/
theorem budget_invariant (name wallet : String) (cap : ℚ) (hcap : 0 ≤ cap)
    (calls : List PayCall) (hcost : ∀ c ∈ calls, 0 ≤ c.amount) :
    (∀ pre suf, calls = pre ++ suf →
      (runCalls (initState name wallet cap) pre).spendingToday ≤ cap) ∧
    (∀ pre c suf, calls = pre ++ c :: suf →
      cap - (runCalls (initState name wallet cap) pre).spendingToday <
        c.amount →
      payStep (runCalls (initState name wallet cap) pre) c =
        runCalls (initState name wallet cap) pre) := by
  constructor
  · intro pre suf _
    have h := runCalls_spending_le pre (initState name wallet cap)
      (by simpa [initState] using hcap)
    simpa [initState] using h
  · intro pre c suf _ hover
    apply payStep_refused
    rwa [runCalls_maxDailySpend, initState]

/-- Fixture for the C2 witness: one affordable paid call. -/
def pay1 : PayCall :=
  { endpoint := "/api/v1/x", amount := 0.005, method := "GET", env := okEnv () }

/-- Witness for C2: a fresh agent with cap 10 and the one-call sequence
`[pay1]` satisfies the hypotheses, and after the call the spend stays within
the cap. -/
theorem budget_invariant_check :
    (0 : ℚ) ≤ 10 ∧ (∀ c ∈ [pay1], 0 ≤ c.amount) ∧
    (runCalls (initState "a" "w" 10) [pay1]).spendingToday ≤ 10 :=
  ⟨by norm_num,
   by intro c hc; rw [List.mem_singleton] at hc; rw [hc]; norm_num [pay1],
   (budget_invariant "a" "w" 10 (by norm_num) [pay1]
       (by intro c hc; rw [List.mem_singleton] at hc; rw [hc]; norm_num [pay1])).1
     [pay1] [] rfl⟩

/-- Adding one successful transaction to the per-endpoint aggregation raises
the total cost by exactly its amount, whether its endpoint is new or
existing. -/
theorem sumAgg_addToGroup (l : List (String × EndpointAgg)) (e : String)
    (a : ℚ) : sumAgg (addToGroup l e a) = sumAgg l + a := by
  induction l with
  | nil => simp [addToGroup, sumAgg]
  | cons p rest ih =>
      obtain ⟨k, agg⟩ := p
      by_cases hk : k = e
      · simp [addToGroup, hk, sumAgg]
        ring
      · simp only [addToGroup, if_neg hk, sumAgg, List.map_cons, List.sum_cons]
        rw [show (List.map (fun p => p.2.totalCost) (addToGroup rest e a)).sum
            = sumAgg (addToGroup rest e a) from rfl, ih]
        show agg.totalCost + (sumAgg rest + a) = agg.totalCost + sumAgg rest + a
        ring

/-- Folding a transaction list into the aggregation adds the sum of the
amounts. -/
theorem sumAgg_foldl (txs : List Transaction)
    (acc : List (String × EndpointAgg)) :
    sumAgg (txs.foldl (fun acc t => addToGroup acc t.endpoint t.amount) acc) =
      sumAgg acc + (txs.map fun t => t.amount).sum := by
  induction txs generalizing acc with
  | nil => simp
  | cons t rest ih =>
      simp only [List.foldl_cons, List.map_cons, List.sum_cons]
      rw [ih, sumAgg_addToGroup]
      ring

/-- The total cost reported by `groupByEndpoint` is the sum of the amounts of
the successful transactions. -/
theorem sumAgg_groupByEndpoint (txs : List Transaction) :
    sumAgg (groupByEndpoint txs) = successSpend txs := by
  unfold groupByEndpoint successSpend
  rw [sumAgg_foldl]
  simp [sumAgg]

/-- Appending one transaction changes `successSpend` by its amount when it is
successful and not at all when it is failed. -/
theorem successSpend_append (txs : List Transaction) (tx : Transaction) :
    successSpend (txs ++ [tx]) =
      successSpend txs +
        (if tx.status = TxStatus.success then tx.amount else 0) := by
  unfold successSpend
  rw [List.filter_append]
  by_cases h : tx.status = TxStatus.success
  · have hb : (tx.status == TxStatus.success) = true := by simp [h]
    simp [h, List.filter, hb]
  · have hb : (tx.status == TxStatus.success) = false := by simp [h]
    simp [h, List.filter, hb]

/-- One abstract paid call preserves the accounting identity
`spendingToday = successSpend transactions`. -/
theorem payStep_accounting (s : AgentState) (c : PayCall)
    (h : s.spendingToday = successSpend s.transactions) :
    (payStep s c).spendingToday = successSpend (payStep s c).transactions := by
  rcases payStep_spec s c with h1 | ⟨tx, hst, ham, _, h1⟩ | ⟨tx, hst, h1⟩ <;>
    rw [h1]
  · exact h
  · show s.spendingToday + c.amount = successSpend (s.transactions ++ [tx])
    rw [successSpend_append, if_pos hst, h, ham]
  · show s.spendingToday = successSpend (s.transactions ++ [tx])
    rw [successSpend_append, if_neg (by rw [hst]; intro hcon; cases hcon), h,
      add_zero]

/-- The accounting identity is preserved along any sequence of paid calls. -/
theorem runCalls_accounting (calls : List PayCall) (s : AgentState)
    (h : s.spendingToday = successSpend s.transactions) :
    (runCalls s calls).spendingToday =
      successSpend (runCalls s calls).transactions := by
  induction calls generalizing s with
  | nil => exact h
  | cons c cs ih => exact ih (payStep s c) (payStep_accounting s c h)

/-- C10: in every agent state reachable from a fresh agent by a sequence of
paid workflow calls, the sum of `totalCost` over the `groupByEndpoint`
aggregation equals `spendingToday` — both accumulate exactly the amounts of
the successful transactions, the aggregation silently dropping the failed
ones. -/
theorem groupByEndpoint_total_eq_spending (name wallet : String) (cap : ℚ)
    (calls : List PayCall) :
    sumAgg (groupByEndpoint
        (runCalls (initState name wallet cap) calls).transactions) =
      (runCalls (initState name wallet cap) calls).spendingToday ∧
    (runCalls (initState name wallet cap) calls).spendingToday =
      successSpend (runCalls (initState name wallet cap) calls).transactions := by
  have h := runCalls_accounting calls (initState name wallet cap)
    (by simp [initState, successSpend])
  exact ⟨by rw [sumAgg_groupByEndpoint, h], h⟩

end NulucreAgent
